import Mathlib

/-!
Verification of the entity-relationship consistency and persistence layer of
the Persistence_202501 repository, against its specification.

Part 1 embeds the CSV-backed game-lending store
(`src/Project_1/jogos/database.py`, models in `src/Project_1/jogos/models.py`).
The persisted state of the three CSV files is modelled at the typed level as
three lists (the parsed contents of `jogos.csv`, `amigos.csv`,
`emprestimos.csv`); the string-level round trip through the CSV cells is
modelled separately (Part 2) where the spec's round-trip property needs it.
Python exceptions are modelled with `Except`; since a raise after an
`escrever_csv` call leaves that write persisted, every operation returns the
resulting store state alongside the `Except` result.
-/

/-- Model of `Jogo` (models.py): id, titulo, genero, plataforma,
ano_lancamento, disponivel (default `True`). -/
structure Jogo where
  id : Int
  titulo : String
  genero : String
  plataforma : String
  ano_lancamento : Int
  disponivel : Bool
deriving Repr, DecidableEq

/-- Model of `Amigo` (models.py): id, nome, telefone, optional email,
data_cadastro. -/
structure Amigo where
  id : Int
  nome : String
  telefone : String
  email : Option String
  data_cadastro : String
deriving Repr, DecidableEq

/-- Model of `Emprestimo` (models.py): id, jogo_id, amigo_id, data_emprestimo,
data_devolucao. -/
structure Emprestimo where
  id : Int
  jogo_id : Int
  amigo_id : Int
  data_emprestimo : String
  data_devolucao : String
deriving Repr, DecidableEq

/-- Errors raised (`ValueError`) by the database layer of Project 1, mapped to
HTTP 400 by main.py. Each constructor corresponds to one `raise ValueError`
site in database.py and carries the id interpolated into the message. -/
inductive DbError where
  | jogoNaoEncontrado (id : Int)
  | amigoNaoEncontrado (id : Int)
  | jogoNaoDisponivel (id : Int)
  | idJaExiste (entidade : String) (id : Int)
deriving Repr, DecidableEq

/-- Model of `criar_entidade` (database.py lines 103-114): reject when some
stored record already has the new item's id, else append the item and rewrite
the collection. The `getId` projection stands for `d.get('id')` /
`item.id`. -/
def criar_entidade {α : Type} (entidade : String) (getId : α → Int)
    (dados : List α) (item : α) : Except DbError (List α) :=
  if dados.any (fun d => getId d == getId item) then
    .error (.idJaExiste entidade (getId item))
  else
    .ok (dados ++ [item])

/-- Model of `atualizar_entidade` (database.py lines 116-138): the duplicate-id
check (`item.id != item_id and any(...)`) runs first and raises; then every
stored record whose id equals `item_id` is replaced by `item`; if none
matched, `None` is returned and nothing is written. On success the rewritten
collection and the item are returned. -/
def atualizar_entidade {α : Type} (entidade : String) (getId : α → Int)
    (dados : List α) (item_id : Int) (item : α) :
    Except DbError (Option (List α × α)) :=
  if getId item != item_id && dados.any (fun ent => getId ent == getId item) then
    .error (.idJaExiste entidade (getId item))
  else
    let dados_atualizados := dados.map (fun ent => if getId ent == item_id then item else ent)
    let encontrado := dados.any (fun ent => getId ent == item_id)
    if encontrado then .ok (some (dados_atualizados, item)) else .ok none

/-- Model of `deletar_entidade` (database.py lines 140-154): if no record has
the id, return `none` (python `False`) without writing; else write the
filtered collection (python returns `True`). -/
def deletar_entidade {α : Type} (getId : α → Int)
    (dados : List α) (item_id : Int) : Option (List α) :=
  if dados.any (fun d => getId d == item_id) then
    some (dados.filter (fun d => !(getId d == item_id)))
  else
    none

/-- Parsed contents of the three CSV files of Project 1. -/
structure SistemaJogos where
  jogos : List Jogo
  amigos : List Amigo
  emprestimos : List Emprestimo
deriving Repr, DecidableEq

/-- In `criar_emprestimo` / `atualizar_emprestimo` / `deletar_emprestimo` the
python code takes the first jogo in the loaded list with a matching id
(`next(j for j in jogos if j.id == ...)`) and mutates its `disponivel` field
in place; the whole (thus modified) list is then dumped to the CSV. This
helper performs that in-place mutation of the first match functionally; when
no jogo matches it is the identity, matching the source's `if jogo:`
guards. -/
def setDisponivelFirst (jogos : List Jogo) (jid : Int) (v : Bool) : List Jogo :=
  match jogos with
  | [] => []
  | j :: rest =>
      if j.id == jid then { j with disponivel := v } :: rest
      else j :: setDisponivelFirst rest jid v

/-- Model of `criar_emprestimo` (database.py lines 186-207): check jogo
exists, then amigo exists, then availability of the first matching jogo; set
that jogo's `disponivel` to `False` and rewrite `jogos.csv` (persisted even if
the following step raises); finally `criar_entidade` on the emprestimos
collection, which may still raise on a duplicate id. -/
def criar_emprestimo (st : SistemaJogos) (emprestimo : Emprestimo) :
    Except DbError Emprestimo × SistemaJogos :=
  if !(st.jogos.any (fun j => j.id == emprestimo.jogo_id)) then
    (.error (.jogoNaoEncontrado emprestimo.jogo_id), st)
  else if !(st.amigos.any (fun a => a.id == emprestimo.amigo_id)) then
    (.error (.amigoNaoEncontrado emprestimo.amigo_id), st)
  else
    match st.jogos.find? (fun j => j.id == emprestimo.jogo_id) with
    | none => (.error (.jogoNaoEncontrado emprestimo.jogo_id), st)
    | some jogo =>
      if !jogo.disponivel then
        (.error (.jogoNaoDisponivel emprestimo.jogo_id), st)
      else
        let st1 : SistemaJogos :=
          { st with jogos := setDisponivelFirst st.jogos emprestimo.jogo_id false }
        match criar_entidade "emprestimos" Emprestimo.id st1.emprestimos emprestimo with
        | .error e => (.error e, st1)
        | .ok emps => (.ok emprestimo, { st1 with emprestimos := emps })

/-- Final step of `atualizar_emprestimo`: `atualizar_entidade` on the
emprestimos collection, threading the store state (the jogos rewrite, if any,
already happened and stays persisted even if this step raises). -/
def finishLoanUpdate (st : SistemaJogos) (emprestimo_id : Int)
    (emprestimo : Emprestimo) : Except DbError (Option Emprestimo) × SistemaJogos :=
  match atualizar_entidade "emprestimos" Emprestimo.id st.emprestimos emprestimo_id emprestimo with
  | .error e => (.error e, st)
  | .ok none => (.ok none, st)
  | .ok (some (emps, it)) => (.ok (some it), { st with emprestimos := emps })

/-- Model of `atualizar_emprestimo` (database.py lines 209-236): find the old
emprestimo (`None` if absent, nothing written); if its jogo_id changed,
release the old jogo in memory, then look up the new jogo: if it exists and is
unavailable, raise before any write (so the old jogo's release is NOT
persisted); otherwise reserve the new jogo if it exists and rewrite
`jogos.csv`; finally run `atualizar_entidade` on the emprestimos
collection. -/
def atualizar_emprestimo (st : SistemaJogos) (emprestimo_id : Int)
    (emprestimo : Emprestimo) : Except DbError (Option Emprestimo) × SistemaJogos :=
  match st.emprestimos.find? (fun e => e.id == emprestimo_id) with
  | none => (.ok none, st)
  | some emprestimo_antigo =>
    if emprestimo_antigo.jogo_id != emprestimo.jogo_id then
      let jogos1 := setDisponivelFirst st.jogos emprestimo_antigo.jogo_id true
      match jogos1.find? (fun j => j.id == emprestimo.jogo_id) with
      | some jogo_novo =>
        if !jogo_novo.disponivel then
          (.error (.jogoNaoDisponivel emprestimo.jogo_id), st)
        else
          finishLoanUpdate
            { st with jogos := setDisponivelFirst jogos1 emprestimo.jogo_id false }
            emprestimo_id emprestimo
      | none =>
          finishLoanUpdate { st with jogos := jogos1 } emprestimo_id emprestimo
    else
      finishLoanUpdate st emprestimo_id emprestimo

/-- Model of `deletar_emprestimo` (database.py lines 238-256): find the
emprestimo (`False` if absent); if its jogo exists, set that jogo's
`disponivel` to `True` and rewrite `jogos.csv`; then `deletar_entidade` on the
emprestimos collection. -/
def deletar_emprestimo (st : SistemaJogos) (emprestimo_id : Int) :
    Bool × SistemaJogos :=
  match st.emprestimos.find? (fun e => e.id == emprestimo_id) with
  | none => (false, st)
  | some emprestimo =>
    let st1 : SistemaJogos :=
      if st.jogos.any (fun j => j.id == emprestimo.jogo_id) then
        { st with jogos := setDisponivelFirst st.jogos emprestimo.jogo_id true }
      else st
    match deletar_entidade Emprestimo.id st1.emprestimos emprestimo_id with
    | some emps => (true, { st1 with emprestimos := emps })
    | none => (false, st1)

/-! Concrete sample records used to instantiate the theorems below. -/

/-- Sample jogo with id 1, currently on loan (`disponivel = false`). -/
def jogoUm : Jogo :=
  { id := 1, titulo := "Alpha", genero := "RPG", plataforma := "PC",
    ano_lancamento := 2000, disponivel := false }

/-- Sample jogo with id 2, currently on loan (`disponivel = false`). -/
def jogoDois : Jogo :=
  { id := 2, titulo := "Beta", genero := "Puzzle", plataforma := "PC",
    ano_lancamento := 2001, disponivel := false }

/-- Sample jogo with id 1, available. -/
def jogoLivre : Jogo := { jogoUm with disponivel := true }

/-- Sample jogo with id 2, available. -/
def jogoDoisLivre : Jogo := { jogoDois with disponivel := true }

/-- Sample jogo with id 3, available. -/
def jogoTres : Jogo :=
  { id := 3, titulo := "Gamma", genero := "Acao", plataforma := "PC",
    ano_lancamento := 2002, disponivel := true }

/-- Sample amigo with id 1. -/
def amigoUm : Amigo :=
  { id := 1, nome := "Ana", telefone := "1111-1111", email := some "ana@x.com",
    data_cadastro := "2025-01-01" }

/-- Sample emprestimo with id 1 referencing jogo 1 and amigo 1. -/
def empUm : Emprestimo :=
  { id := 1, jogo_id := 1, amigo_id := 1, data_emprestimo := "2025-01-02",
    data_devolucao := "2025-01-09" }

/-- Sample emprestimo with id 2 referencing jogo 1 and amigo 1. -/
def empDois : Emprestimo := { empUm with id := 2 }

/-- Sample emprestimo with id 1 referencing jogo 2 and amigo 1 (used as the
updated value of emprestimo 1 when its jogo changes). -/
def empNovoJogo : Emprestimo := { empUm with jogo_id := 2 }

/-- Store where jogo 1 exists but is unavailable and no amigo exists. -/
def sistemaC1 : SistemaJogos := { jogos := [jogoUm], amigos := [], emprestimos := [] }

/-- Store where jogo 1 is unavailable and amigo 1 exists. -/
def sistemaC1b : SistemaJogos := { jogos := [jogoUm], amigos := [amigoUm], emprestimos := [] }

/-- Store with jogo 1 on loan to amigo 1 through emprestimo 1. -/
def sistemaC2 : SistemaJogos :=
  { jogos := [jogoUm], amigos := [amigoUm], emprestimos := [empUm] }

/-- Store with two unavailable jogos and emprestimo 1 on jogo 1. -/
def sistemaC3 : SistemaJogos :=
  { jogos := [jogoUm, jogoDois], amigos := [amigoUm], emprestimos := [empUm] }

/-- Store with jogo 1 unavailable, jogo 2 available, emprestimo 1 on jogo 1. -/
def sistemaC3b : SistemaJogos :=
  { jogos := [jogoUm, jogoDoisLivre], amigos := [amigoUm], emprestimos := [empUm] }

/-- Store with jogo 1 available, amigo 1, and an emprestimo already stored
under id 1. -/
def sistemaDez : SistemaJogos :=
  { jogos := [jogoLivre], amigos := [amigoUm], emprestimos := [empUm] }

/-!
Part 2 embeds the relational blog store (`src/Project_2/blog`): the router
functions `create_post`, `create_user`, `update_user`, `create_like`,
`update_like`, `delete_like` over tables modelled as lists of rows. Columns
populated from the clock (`created_at`/`updated_at` defaults of
models/post.py, category.py, like.py) are not part of any claim and are
omitted from the row models; `User.created_at` (a plain optional string
column, never set by the routers) is kept. HTTP failures
(`raise HTTPException`) are modelled with `Except`; a failure never commits,
so the store is returned unchanged alongside the error.
-/

/-- Model of the `User` table row (models/user.py). -/
structure BlogUser where
  id : Int
  username : String
  email : String
  full_name : Option String
  bio : Option String
  created_at : Option String
deriving Repr, DecidableEq

/-- Model of the `Post` table row (models/post.py), clock columns omitted. -/
structure BlogPost where
  id : Int
  title : String
  content : String
  author_id : Int
deriving Repr, DecidableEq

/-- Model of the `Category` table row (models/category.py), clock columns
omitted. -/
structure BlogCategory where
  id : Int
  name : String
  description : Option String
deriving Repr, DecidableEq

/-- Model of the `PostCategoryLink` table row (models/post.py). -/
structure PostCategoryLink where
  post_id : Int
  category_id : Int
deriving Repr, DecidableEq

/-- Model of the `Like` table row (models/like.py), clock column omitted. -/
structure LikeRec where
  id : Int
  reaction : String
  ip_address : Option String
  user_id : Int
  post_id : Int
deriving Repr, DecidableEq

/-- The relational store: one list of rows per table. -/
structure BlogState where
  users : List BlogUser
  posts : List BlogPost
  categories : List BlogCategory
  links : List PostCategoryLink
  likes : List LikeRec
deriving Repr, DecidableEq

/-- HTTP-level failures raised by the routers. `missingCategories` models the
404 whose detail interpolates `sorted(list(missing_ids))`
(routers/post.py lines 44-48); the ids are kept structurally rather than as
formatted text. `internalError` models an HTTP 500. -/
inductive HttpError where
  | badRequest (detail : String)
  | notFound (detail : String)
  | missingCategories (ids : List Int)
  | internalError (detail : String)
deriving Repr, DecidableEq

/-- Autoincrement primary-key assignment by the engine: one more than the
largest id in the table (SQLite rowid behavior; only freshness of the new id
matters to the claims). -/
def nextId (ids : List Int) : Int := ids.foldl max 0 + 1

/-- Insertion into a strictly sorted duplicate-free list of ids. -/
def insertSortedUnique (x : Int) : List Int → List Int
  | [] => [x]
  | y :: ys =>
      if x < y then x :: y :: ys
      else if x = y then y :: ys
      else y :: insertSortedUnique x ys

/-- Model of python `sorted(list(set(l)))`: the sorted duplicate-free list of
the elements of `l` (routers/post.py line 47). -/
def sortedDedup : List Int → List Int
  | [] => []
  | x :: xs => insertSortedUnique x (sortedDedup xs)

/-- Body of `POST /posts/` (schemas/post.py `PostCreate`). -/
structure PostCreate where
  title : String
  content : String
  author_id : Int
  category_ids : List Int
deriving Repr, DecidableEq

/-- Model of `create_post` (routers/post.py lines 16-69): reject an empty
category list (400); reject an unresolved author (404); reject a duplicate
(title, author) pair (400); compute the set of category ids with no matching
Category row and reject with it when nonempty (404); otherwise insert the
Post row and one link row per requested category id. -/
def create_post (st : BlogState) (post : PostCreate) :
    Except HttpError BlogPost × BlogState :=
  if post.category_ids.isEmpty then
    (.error (.badRequest "At least one category must be provided."), st)
  else if !(st.users.any (fun u => u.id == post.author_id)) then
    (.error (.notFound "Author not found"), st)
  else if st.posts.any (fun p => p.title == post.title && p.author_id == post.author_id) then
    (.error (.badRequest "A post with this title already exists for this author."), st)
  else
    let missing := sortedDedup (post.category_ids.filter
      (fun cid => !(st.categories.any (fun c => c.id == cid))))
    if !missing.isEmpty then
      (.error (.missingCategories missing), st)
    else
      let pid := nextId (st.posts.map (fun p => p.id))
      let db_post : BlogPost :=
        { id := pid, title := post.title, content := post.content,
          author_id := post.author_id }
      (.ok db_post,
       { st with posts := st.posts ++ [db_post],
                 links := st.links ++ post.category_ids.map
                   (fun cid => { post_id := pid, category_id := cid }) })

/-- Body of `POST /users/` (schemas/user.py `UserCreate`). -/
structure UserCreate where
  username : String
  email : String
  full_name : Option String
  bio : Option String
deriving Repr, DecidableEq

/-- Which unique constraint of the `user` table an insert violated. -/
inductive UniqueViolation where
  | userUsername
  | userEmail
deriving Repr, DecidableEq

/-- Modelled from the spec: the relational engine (an external dependency,
not code of this repository) enforcing the unique `username` and `email`
columns declared in models/user.py. It reports the first violated unique
constraint in column-declaration order (`username` is declared before
`email`), which is the behavior the spec's example fixes: createUser twice
fails with the username message. -/
def sqliteInsertUser (users : List BlogUser) (u : BlogUser) :
    Except UniqueViolation (List BlogUser) :=
  if users.any (fun v => v.username == u.username) then .error .userUsername
  else if users.any (fun v => v.email == u.email) then .error .userEmail
  else .ok (users ++ [u])

/-- Model of `create_user` (routers/user.py lines 15-36): build the row and
commit; on an IntegrityError inspect which constraint the message names,
`user.email` first then `user.username`, translating each to its
domain-specific 400 detail; any other integrity error becomes the generic
500. On error the session is rolled back, so the store is unchanged. -/
def create_user (st : BlogState) (user : UserCreate) :
    Except HttpError BlogUser × BlogState :=
  let db_user : BlogUser :=
    { id := nextId (st.users.map (fun v => v.id)), username := user.username,
      email := user.email, full_name := user.full_name, bio := user.bio,
      created_at := none }
  match sqliteInsertUser st.users db_user with
  | .ok users2 => (.ok db_user, { st with users := users2 })
  | .error v =>
      if v == UniqueViolation.userEmail then
        (.error (.badRequest "Email is already in use."), st)
      else if v == UniqueViolation.userUsername then
        (.error (.badRequest "Username is already in use."), st)
      else
        (.error (.internalError "Internal error creating user."), st)

/-- Body of `PUT /users/{id}` (schemas/user.py `UserUpdate`) under
`dict(exclude_unset=True)`: the outer `none` means the field was absent from
the request. For the nullable columns `full_name`/`bio` a supplied value is
itself optional. (A request explicitly supplying `null` for
`username`/`email` would violate their NOT NULL columns at commit and is not
modelled.) -/
structure UserUpdate where
  username : Option String
  email : Option String
  full_name : Option (Option String)
  bio : Option (Option String)
deriving Repr, DecidableEq

/-- The `setattr` merge loop of `update_user` (routers/user.py lines 81-83):
only supplied fields overwrite. -/
def applyUserUpdate (u : BlogUser) (up : UserUpdate) : BlogUser :=
  { u with
    username := up.username.getD u.username,
    email := up.email.getD u.email,
    full_name := up.full_name.getD u.full_name,
    bio := up.bio.getD u.bio }

/-- Replacement of the single row fetched by primary key when the session
commits an updated `User` row. -/
def replaceFirstUser (users : List BlogUser) (uid : Int) (m : BlogUser) :
    List BlogUser :=
  match users with
  | [] => []
  | u :: rest =>
      if u.id == uid then m :: rest else u :: replaceFirstUser rest uid m

/-- Model of `update_user` (routers/user.py lines 71-89): fetch by primary
key (404 if absent), merge only the supplied fields, commit. A commit that
violates the unique username/email columns raises an uncaught IntegrityError
(surfacing as HTTP 500) and persists nothing; that engine-level rejection is
modelled as the internal error. -/
def update_user (st : BlogState) (user_id : Int) (up : UserUpdate) :
    Except HttpError BlogUser × BlogState :=
  match st.users.find? (fun u => u.id == user_id) with
  | none => (.error (.notFound "User not found"), st)
  | some u =>
      let merged := applyUserUpdate u up
      if st.users.any (fun v => !(v.id == user_id) && v.username == merged.username) then
        (.error (.internalError "IntegrityError"), st)
      else if st.users.any (fun v => !(v.id == user_id) && v.email == merged.email) then
        (.error (.internalError "IntegrityError"), st)
      else
        (.ok merged, { st with users := replaceFirstUser st.users user_id merged })

/-- Body of `POST /likes/` (schemas/like.py `LikeCreate`). -/
structure LikeCreate where
  reaction : String
  ip_address : Option String
  user_id : Int
  post_id : Int
deriving Repr, DecidableEq

/-- Model of `create_like` (routers/like.py lines 15-39): reject an
unresolved user (404), an unresolved post (404), and an existing Like with
the same (user, post) pair (400); otherwise insert the row. -/
def create_like (st : BlogState) (like : LikeCreate) :
    Except HttpError LikeRec × BlogState :=
  if !(st.users.any (fun u => u.id == like.user_id)) then
    (.error (.notFound "User not found"), st)
  else if !(st.posts.any (fun p => p.id == like.post_id)) then
    (.error (.notFound "Post not found"), st)
  else if st.likes.any (fun l => l.user_id == like.user_id && l.post_id == like.post_id) then
    (.error (.badRequest "This like already exists"), st)
  else
    let db_like : LikeRec :=
      { id := nextId (st.likes.map (fun l => l.id)), reaction := like.reaction,
        ip_address := like.ip_address, user_id := like.user_id,
        post_id := like.post_id }
    (.ok db_like, { st with likes := st.likes ++ [db_like] })

/-- Body of `PUT /likes/{id}` (schemas/like.py `LikeUpdate`) under
`dict(exclude_unset=True)`: only `reaction` and `ip_address` exist, so
`user_id`/`post_id` can never be changed through this endpoint. -/
structure LikeUpdate where
  reaction : Option String
  ip_address : Option (Option String)
deriving Repr, DecidableEq

/-- The `setattr` merge loop of `update_like` (routers/like.py lines 92-94). -/
def applyLikeUpdate (l : LikeRec) (up : LikeUpdate) : LikeRec :=
  { l with
    reaction := up.reaction.getD l.reaction,
    ip_address := up.ip_address.getD l.ip_address }

/-- Replacement of the single row fetched by primary key when the session
commits an updated `Like` row. -/
def replaceFirstLike (likes : List LikeRec) (lid : Int) (m : LikeRec) :
    List LikeRec :=
  match likes with
  | [] => []
  | l :: rest =>
      if l.id == lid then m :: rest else l :: replaceFirstLike rest lid m

/-- Model of `update_like` (routers/like.py lines 82-100): fetch by primary
key (404 if absent), merge only the supplied fields, commit. -/
def update_like (st : BlogState) (like_id : Int) (up : LikeUpdate) :
    Except HttpError LikeRec × BlogState :=
  match st.likes.find? (fun l => l.id == like_id) with
  | none => (.error (.notFound "Like not found"), st)
  | some l =>
      let merged := applyLikeUpdate l up
      (.ok merged, { st with likes := replaceFirstLike st.likes like_id merged })

/-- Model of `delete_like` (routers/like.py lines 102-111): fetch by primary
key (404 if absent), delete the row. -/
def delete_like (st : BlogState) (like_id : Int) :
    Except HttpError Unit × BlogState :=
  match st.likes.find? (fun l => l.id == like_id) with
  | none => (.error (.notFound "Like not found"), st)
  | some _ => (.ok (), { st with likes := st.likes.filter (fun l => !(l.id == like_id)) })

/-- One request against the likes endpoints. -/
inductive LikeOp where
  | create (req : LikeCreate)
  | update (id : Int) (up : LikeUpdate)
  | delete (id : Int)
deriving Repr, DecidableEq

/-- The store state after one likes request (whether it succeeded or not). -/
def likeStep (st : BlogState) (op : LikeOp) : BlogState :=
  match op with
  | .create req => (create_like st req).2
  | .update id up => (update_like st id up).2
  | .delete id => (delete_like st id).2

/-- The store state after a sequence of likes requests. -/
def runLikeOps (st : BlogState) : List LikeOp → BlogState
  | [] => st
  | op :: ops => runLikeOps (likeStep st op) ops

/-- Two Like rows differ in their (user, post) pair. -/
def likePairDistinct (a b : LikeRec) : Prop :=
  a.user_id ≠ b.user_id ∨ a.post_id ≠ b.post_id

/-- No two Like rows of the table share a (user, post) pair. -/
def noDupLikePairs (likes : List LikeRec) : Prop :=
  likes.Pairwise likePairDistinct

/-- Incoming body of `PUT /jogos/{id}` (main.py line 58): FastAPI parses the
request into the full `Jogo` model of models.py, so there is no
partial-merge path in the flat-file store; `none` means the field was
omitted from the JSON body. -/
structure JogoRequest where
  id : Int
  titulo : String
  genero : String
  plataforma : String
  ano_lancamento : Int
  disponivel : Option Bool
deriving Repr, DecidableEq

/-- Pydantic materialization of a request body into a `Jogo`: an omitted
`disponivel` takes the model default `True` (models.py line 11). -/
def jogoOfRequest (r : JogoRequest) : Jogo :=
  { id := r.id, titulo := r.titulo, genero := r.genero,
    plataforma := r.plataforma, ano_lancamento := r.ano_lancamento,
    disponivel := r.disponivel.getD true }

/-! Concrete sample rows and states for the blog store. -/

/-- Sample user with id 1. -/
def userUm : BlogUser :=
  { id := 1, username := "a", email := "x@x.com", full_name := none,
    bio := none, created_at := none }

/-- Sample post with id 1 authored by user 1. -/
def postUm : BlogPost := { id := 1, title := "t", content := "c", author_id := 1 }

/-- Sample category with id 1. -/
def catUm : BlogCategory := { id := 1, name := "geral", description := none }

/-- Sample like with id 1 by user 1 on post 1. -/
def likeUm : LikeRec :=
  { id := 1, reaction := "like", ip_address := none, user_id := 1, post_id := 1 }

/-- Empty blog store. -/
def blogVazio : BlogState :=
  { users := [], posts := [], categories := [], links := [], likes := [] }

/-- Blog store holding only user 1. -/
def blogComAutor : BlogState := { blogVazio with users := [userUm] }

/-- Blog store with user 1, post 1, category 1 (linked), and like 1. -/
def blogComLike : BlogState :=
  { users := [userUm], posts := [postUm], categories := [catUm],
    links := [{ post_id := 1, category_id := 1 }], likes := [likeUm] }

/-- Like request duplicating the (user 1, post 1) pair. -/
def reqLikeDup : LikeCreate :=
  { reaction := "like", ip_address := none, user_id := 1, post_id := 1 }

/-- Post request by user 1 naming only missing category ids (with a
repeat). -/
def reqPostFaltando : PostCreate :=
  { title := "novo", content := "c", author_id := 1, category_ids := [5, 3, 5] }

/-- Post request by the absent user 9 naming the missing category id 1. -/
def reqPostSemAutor : PostCreate :=
  { title := "novo", content := "c", author_id := 9, category_ids := [1] }

/-- User-creation request matching the spec's duplicate-user example. -/
def reqUserUm : UserCreate :=
  { username := "a", email := "x@x.com", full_name := none, bio := none }

/-- Update request supplying only the `bio` field. -/
def upBio : UserUpdate :=
  { username := none, email := none, full_name := none, bio := some (some "oi") }

/-- Update body for jogo 1 omitting `disponivel` and changing the title. -/
def reqJogoParcial : JogoRequest :=
  { id := 1, titulo := "Alpha2", genero := "RPG", plataforma := "PC",
    ano_lancamento := 2000, disponivel := none }

/-!
Part 3 models the persisted CSV cell representation, for the spec's
create/get-by-id round-trip property. A cell is the text written by
`csv.DictWriter` for the corresponding `model_dump` value: python `str` of
the value, with `None` written as the empty cell. CSV quoting/escaping
round-trips cell text exactly and is abstracted. Loading a row is
`_converter_tipos` (database.py lines 31-48) followed by pydantic validation
(`carregar_entidades`, lines 88-101), which skips rows that fail to
validate. -/

/-- Decimal digit character: `str` of one digit 0-9. -/
def digitChar (d : Nat) : Char := Char.ofNat (48 + d)

/-- Whether a character is a decimal digit. -/
def isDigitChar (c : Char) : Bool := 48 ≤ c.toNat && c.toNat ≤ 57

/-- Decimal digits of a natural number, most significant first, prepended to
`acc`; fuel-structured so that the kernel can evaluate it (any fuel at least
the number works). -/
def natDigitsAux : Nat → Nat → List Char → List Char
  | 0, n, acc => digitChar n :: acc
  | fuel+1, n, acc =>
      if n < 10 then digitChar n :: acc
      else natDigitsAux fuel (n / 10) (digitChar (n % 10) :: acc)

/-- Decimal digits of a natural number (python `str(n)` for `n ≥ 0`). -/
def natDigits (n : Nat) (acc : List Char) : List Char := natDigitsAux n n acc

/-- `10 ^ (number of decimal digits of n)`, following the recursion of
`natDigitsAux` (proof-internal). -/
def tenPow (n : Nat) : Nat :=
  if n < 10 then 10 else 10 * tenPow (n / 10)
termination_by n
decreasing_by
  exact Nat.div_lt_self (by omega) (by omega)

/-- Value accumulation of python `int` over decimal digits. -/
def digitsVal (cs : List Char) (acc : Nat) : Nat :=
  match cs with
  | [] => acc
  | c :: rest => digitsVal rest (acc * 10 + (c.toNat - 48))

/-- python `int` on an unsigned decimal literal: at least one character, all
digits. (python additionally tolerates surrounding whitespace, an explicit
sign and digit-group underscores; those forms are never produced by `str`
and play no role in the round trip.) -/
def parseNatDigits (cs : List Char) : Option Nat :=
  if cs.isEmpty then none
  else if cs.all isDigitChar then some (digitsVal cs 0) else none

/-- python `int` on a cell's characters: a leading minus sign then digits,
or just digits. -/
def pyIntChars : List Char → Option Int
  | [] => none
  | c :: rest =>
      if c = '-' then (parseNatDigits rest).map (fun n => -(n : Int))
      else (parseNatDigits (c :: rest)).map (fun n => (n : Int))

/-- python `str` of an int. -/
def pyStr (i : Int) : String :=
  match i with
  | .ofNat n => ⟨natDigits n []⟩
  | .negSucc m => ⟨'-' :: natDigits (m + 1) []⟩

/-- python `int` of a cell. -/
def pyInt (s : String) : Option Int := pyIntChars s.data

/-- python `str.lower` (ASCII as used here). -/
def pyLower (s : String) : String := ⟨s.data.map Char.toLower⟩

/-- python `str` of a bool: the cell written for a bool field. -/
def pyStrBool (b : Bool) : String := if b then "True" else "False"

/-- The `disponivel` converter of `_converter_tipos` (database.py line 38):
`lambda x: str(x).lower() == 'true'`, applied to a nonempty cell; it never
fails. -/
def parseBoolCell (s : String) : Bool := pyLower s == "true"

/-- Cells of one `jogos.csv` row, in header order. -/
structure JogoRow where
  id : String
  titulo : String
  genero : String
  plataforma : String
  ano_lancamento : String
  disponivel : String
deriving Repr, DecidableEq

/-- `model_dump` + `csv.DictWriter` for a Jogo. -/
def dumpJogo (j : Jogo) : JogoRow :=
  { id := pyStr j.id, titulo := j.titulo, genero := j.genero,
    plataforma := j.plataforma, ano_lancamento := pyStr j.ano_lancamento,
    disponivel := pyStrBool j.disponivel }

/-- `_converter_tipos` + `Jogo.model_validate` for one row: `id` and
`ano_lancamento` are parsed as int (an empty or unparsable cell is left as
text and then rejected by int validation); pydantic re-checks the length
bounds of models.py lines 7-9 and the year range `ge=1950,
le=datetime.now().year` — the value of `datetime.now().year`, fixed when the
model class is defined, is the `anoAtual` parameter; a nonempty `disponivel`
cell is converted by `parseBoolCell`, an empty one is rejected by bool
validation. -/
def loadJogo (anoAtual : Int) (r : JogoRow) : Option Jogo :=
  match pyInt r.id, pyInt r.ano_lancamento with
  | some i, some ano =>
      if r.titulo.length ≤ 100 ∧ r.genero.length ≤ 50 ∧ r.plataforma.length ≤ 50 ∧
          1950 ≤ ano ∧ ano ≤ anoAtual ∧ r.disponivel ≠ "" then
        some { id := i, titulo := r.titulo, genero := r.genero,
               plataforma := r.plataforma, ano_lancamento := ano,
               disponivel := parseBoolCell r.disponivel }
      else none
  | _, _ => none

/-- Cells of one `amigos.csv` row, in header order. -/
structure AmigoRow where
  id : String
  nome : String
  telefone : String
  email : String
  data_cadastro : String
deriving Repr, DecidableEq

/-- `model_dump` + `csv.DictWriter` for an Amigo: `email = None` is written
as the empty cell. -/
def dumpAmigo (a : Amigo) : AmigoRow :=
  { id := pyStr a.id, nome := a.nome, telefone := a.telefone,
    email := a.email.getD "", data_cadastro := a.data_cadastro }

/-- `_converter_tipos` + `Amigo.model_validate` for one row: `id` parsed as
int; length bounds of models.py lines 15-17 re-checked. The email cell read
from the CSV is always a string, and a string always validates against
`Optional[str]`, so the loaded email is `some` of the cell — an empty cell
yields `some ""`, never `none`. -/
def loadAmigo (r : AmigoRow) : Option Amigo :=
  match pyInt r.id with
  | some i =>
      if r.nome.length ≤ 100 ∧ r.telefone.length ≤ 20 ∧ r.email.length ≤ 100 then
        some { id := i, nome := r.nome, telefone := r.telefone,
               email := some r.email, data_cadastro := r.data_cadastro }
      else none
  | none => none

/-- Cells of one `emprestimos.csv` row, in header order. -/
structure EmprestimoRow where
  id : String
  jogo_id : String
  amigo_id : String
  data_emprestimo : String
  data_devolucao : String
deriving Repr, DecidableEq

/-- `model_dump` + `csv.DictWriter` for an Emprestimo. -/
def dumpEmprestimo (e : Emprestimo) : EmprestimoRow :=
  { id := pyStr e.id, jogo_id := pyStr e.jogo_id, amigo_id := pyStr e.amigo_id,
    data_emprestimo := e.data_emprestimo, data_devolucao := e.data_devolucao }

/-- `_converter_tipos` + `Emprestimo.model_validate` for one row: the three
id cells parsed as int; the date fields are unconstrained strings. -/
def loadEmprestimo (r : EmprestimoRow) : Option Emprestimo :=
  match pyInt r.id, pyInt r.jogo_id, pyInt r.amigo_id with
  | some i, some j, some a =>
      some { id := i, jogo_id := j, amigo_id := a,
             data_emprestimo := r.data_emprestimo,
             data_devolucao := r.data_devolucao }
  | _, _, _ => none

/-- `carregar_entidades` for amigos: validate every row, skipping the ones
that fail (database.py lines 93-98). -/
def carregarAmigosRows (rows : List AmigoRow) : List Amigo :=
  rows.filterMap loadAmigo

/-- Sample amigo with the optional email left empty. -/
def amigoSemEmail : Amigo := { amigoUm with email := none }

deriving instance DecidableEq for Except

/-! Helper lemmas shared by the claim theorems. -/

/-- A successful `find?` implies a successful `any` with the same predicate. -/
theorem any_of_find?_eq_some {α : Type} {p : α → Bool} {l : List α} {a : α}
    (h : l.find? p = some a) : l.any p = true :=
  List.any_eq_true.mpr ⟨a, List.mem_of_find?_eq_some h, List.find?_some h⟩

/-- After toggling the first jogo whose id matches, `find?` on that id returns
the toggled record. -/
theorem find?_setDisponivelFirst {jogos : List Jogo} {jid : Int} {g : Jogo} (v : Bool)
    (h : jogos.find? (fun j => j.id == jid) = some g) :
    (setDisponivelFirst jogos jid v).find? (fun j => j.id == jid)
      = some { g with disponivel := v } := by
  induction jogos with
  | nil => simp [List.find?] at h
  | cons j rest ih =>
    unfold setDisponivelFirst
    by_cases hj : (j.id == jid) = true
    · rw [if_pos hj]
      rw [List.find?_cons] at h
      simp only [hj] at h
      injection h with h
      subst h
      rw [List.find?_cons]
      have h2 : (fun j : Jogo => j.id == jid) { j with disponivel := v } = true := hj
      simp only [h2]
    · rw [if_neg hj]
      rw [List.find?_cons] at h
      simp only [Bool.not_eq_true] at hj
      simp only [hj] at h
      rw [List.find?_cons]
      have h2 : (fun j : Jogo => j.id == jid) j = false := hj
      simp only [h2]
      exact ih h

/-- The emprestimos-collection update at the end of `atualizar_emprestimo`
never touches the jogos collection. -/
theorem finishLoanUpdate_jogos (st : SistemaJogos) (lid : Int) (e : Emprestimo) :
    (finishLoanUpdate st lid e).2.jogos = st.jogos := by
  unfold finishLoanUpdate
  rcases h : atualizar_entidade "emprestimos" Emprestimo.id st.emprestimos lid e with e' | o
  · simp
  · cases o with
    | none => simp
    | some p => simp

/-- C1 (amended): when the referenced jogo exists with `disponivel = false`
AND the referenced amigo also resolves, `criar_emprestimo` fails with the
not-available error and the whole store (in particular the emprestimos
collection) is unchanged. -/
theorem claim_C1_notAvailable (st : SistemaJogos) (e : Emprestimo) (g : Jogo)
    (hg : st.jogos.find? (fun j => j.id == e.jogo_id) = some g)
    (hd : g.disponivel = false)
    (ha : st.amigos.any (fun a => a.id == e.amigo_id) = true) :
    criar_emprestimo st e = (.error (.jogoNaoDisponivel e.jogo_id), st) := by
  have hj := any_of_find?_eq_some hg
  unfold criar_emprestimo
  rw [hj, ha, hg]
  simp [hd]

/-- C1 counterexample: a store in which jogo 1 exists with
`disponivel = false` but the amigo referenced by the new emprestimo does not
exist; `criar_emprestimo` fails with the amigo-not-found error, not with the
not-available error, refuting the claim's universal quantification over
persisted states. -/
theorem claim_C1_counterexample :
    sistemaC1.jogos.find? (fun j => j.id == empUm.jogo_id) = some jogoUm ∧
    jogoUm.disponivel = false ∧
    (criar_emprestimo sistemaC1 empUm).1 = .error (.amigoNaoEncontrado 1) ∧
    (criar_emprestimo sistemaC1 empUm).1 ≠ .error (.jogoNaoDisponivel empUm.jogo_id) := by
  decide

/-- Witness instantiating `claim_C1_notAvailable` on a concrete store. -/
theorem claim_C1_witness :
    criar_emprestimo sistemaC1b empUm = (.error (.jogoNaoDisponivel empUm.jogo_id), sistemaC1b) :=
  claim_C1_notAvailable sistemaC1b empUm jogoUm (by decide) (by decide) (by decide)

/-- C10: when jogo and amigo resolve, the jogo is available, but the new
emprestimo's id duplicates a stored one, `criar_emprestimo` fails with the
duplicate-id error after the jogos collection has already been persisted with
the jogo reserved (`disponivel = false`), and the emprestimos collection is
unchanged: a reserved jogo with no corresponding new emprestimo. -/
theorem claim_C10_reservedGameOrphan (st : SistemaJogos) (e : Emprestimo) (g : Jogo)
    (hg : st.jogos.find? (fun j => j.id == e.jogo_id) = some g)
    (hd : g.disponivel = true)
    (ha : st.amigos.any (fun a => a.id == e.amigo_id) = true)
    (hdup : st.emprestimos.any (fun d => d.id == e.id) = true) :
    criar_emprestimo st e =
      (.error (.idJaExiste "emprestimos" e.id),
        { st with jogos := setDisponivelFirst st.jogos e.jogo_id false }) ∧
    (criar_emprestimo st e).2.jogos.find? (fun j => j.id == e.jogo_id)
      = some { g with disponivel := false } ∧
    (criar_emprestimo st e).2.emprestimos = st.emprestimos := by
  have hj := any_of_find?_eq_some hg
  have hmain : criar_emprestimo st e =
      (.error (.idJaExiste "emprestimos" e.id),
        { st with jogos := setDisponivelFirst st.jogos e.jogo_id false }) := by
    unfold criar_emprestimo
    rw [hj, ha, hg]
    simp [criar_entidade, hd, hdup]
  refine ⟨hmain, ?_, ?_⟩
  · rw [hmain]
    exact find?_setDisponivelFirst false hg
  · rw [hmain]

/-- Witness instantiating `claim_C10_reservedGameOrphan` on a concrete
store. -/
theorem claim_C10_witness :
    (criar_emprestimo sistemaDez empUm).2.jogos.find? (fun j => j.id == empUm.jogo_id)
      = some { jogoLivre with disponivel := false } ∧
    (criar_emprestimo sistemaDez empUm).2.emprestimos = sistemaDez.emprestimos :=
  ⟨(claim_C10_reservedGameOrphan sistemaDez empUm jogoLivre (by decide) (by decide)
      (by decide) (by decide)).2.1,
   (claim_C10_reservedGameOrphan sistemaDez empUm jogoLivre (by decide) (by decide)
      (by decide) (by decide)).2.2⟩

/-- C2: deleting a stored emprestimo flips its jogo's `disponivel` back to
true and removes the emprestimo, after which creating a fresh emprestimo for
the same jogo (fresh id, existing amigo) succeeds; deleting an absent id
returns `false` without error and without changing the store. -/
theorem claim_C2_deleteLoanReleases (st : SistemaJogos) (loanId : Int)
    (emp : Emprestimo) (g : Jogo) (e2 : Emprestimo) :
    (st.emprestimos.find? (fun e => e.id == loanId) = some emp →
     st.jogos.find? (fun j => j.id == emp.jogo_id) = some g →
     e2.jogo_id = emp.jogo_id →
     st.amigos.any (fun a => a.id == e2.amigo_id) = true →
     (∀ l ∈ st.emprestimos, l.id ≠ e2.id) →
     ((deletar_emprestimo st loanId).1 = true ∧
      (deletar_emprestimo st loanId).2.jogos.find? (fun j => j.id == emp.jogo_id)
        = some { g with disponivel := true } ∧
      (criar_emprestimo (deletar_emprestimo st loanId).2 e2).1 = .ok e2))
  ∧ (st.emprestimos.find? (fun e => e.id == loanId) = none →
      deletar_emprestimo st loanId = (false, st)) := by
  constructor
  · intro hfind hg he2 ha hfresh
    have hjany := any_of_find?_eq_some hg
    have hempany := any_of_find?_eq_some hfind
    have hdel : deletar_emprestimo st loanId =
        (true, { jogos := setDisponivelFirst st.jogos emp.jogo_id true,
                 amigos := st.amigos,
                 emprestimos := st.emprestimos.filter (fun d => !(d.id == loanId)) }) := by
      unfold deletar_emprestimo
      rw [hfind]
      simp [deletar_entidade, hjany, hempany]
    rw [hdel]
    have hfj := find?_setDisponivelFirst true hg
    refine ⟨rfl, hfj, ?_⟩
    have hface : (st.emprestimos.filter (fun d => !(d.id == loanId))).any
        (fun d => d.id == e2.id) = false := by
      rw [List.any_eq_false]
      intro x hx
      have hxmem := (List.mem_filter.mp hx).1
      simpa using hfresh x hxmem
    unfold criar_emprestimo
    rw [he2]
    simp only []
    rw [any_of_find?_eq_some hfj, ha, hfj]
    simp [criar_entidade, hface]
  · intro hnone
    unfold deletar_emprestimo
    rw [hnone]

/-- Witness instantiating both halves of `claim_C2_deleteLoanReleases`:
deleting emprestimo 1 releases jogo 1 and a fresh emprestimo 2 on jogo 1 then
succeeds; deleting the absent id 99 returns `false` with the store intact. -/
theorem claim_C2_witness :
    (criar_emprestimo (deletar_emprestimo sistemaC2 1).2 empDois).1 = .ok empDois ∧
    deletar_emprestimo sistemaC2 99 = (false, sistemaC2) :=
  ⟨((claim_C2_deleteLoanReleases sistemaC2 1 empUm jogoUm empDois).1 (by decide)
      (by decide) (by decide) (by decide) (by decide)).2.2,
   (claim_C2_deleteLoanReleases sistemaC2 99 empUm jogoUm empDois).2 (by decide)⟩

/-- C3 counterexample: emprestimo 1 is moved from jogo 1 to jogo 2 while jogo
2 is unavailable; the operation fails with the not-available error and the
final store equals the initial one, so the old jogo's release (jogo 1 still
has `disponivel = false`) was NOT persisted on the failure path, refuting the
claim that the release is persisted even on failure. -/
theorem claim_C3_counterexample :
    atualizar_emprestimo sistemaC3 1 empNovoJogo
      = (.error (.jogoNaoDisponivel 2), sistemaC3) ∧
    sistemaC3.jogos.find? (fun j => j.id == empUm.jogo_id) = some jogoUm ∧
    jogoUm.disponivel = false := by
  decide

/-- C3 (amended): when the stored emprestimo's jogo changes, the old jogo is
released only in memory; if the new jogo exists and is unavailable the
operation fails with the not-available error and NOTHING is persisted (the
store is returned unchanged); if the new jogo exists and is available, or does
not exist, the jogos collection is persisted with the old jogo released (and
the new one reserved when present) before the emprestimo update runs. -/
theorem claim_C3_gameSwitch (st : SistemaJogos) (lid : Int) (novo old : Emprestimo)
    (gn : Jogo)
    (hfind : st.emprestimos.find? (fun e => e.id == lid) = some old)
    (hch : (old.jogo_id != novo.jogo_id) = true) :
    ((setDisponivelFirst st.jogos old.jogo_id true).find? (fun j => j.id == novo.jogo_id)
        = some gn →
      (gn.disponivel = false →
        atualizar_emprestimo st lid novo = (.error (.jogoNaoDisponivel novo.jogo_id), st)) ∧
      (gn.disponivel = true →
        (atualizar_emprestimo st lid novo).2.jogos
          = setDisponivelFirst (setDisponivelFirst st.jogos old.jogo_id true)
              novo.jogo_id false))
  ∧ ((setDisponivelFirst st.jogos old.jogo_id true).find? (fun j => j.id == novo.jogo_id)
        = none →
      (atualizar_emprestimo st lid novo).2.jogos
        = setDisponivelFirst st.jogos old.jogo_id true) := by
  constructor
  · intro hfn
    constructor
    · intro hdf
      unfold atualizar_emprestimo
      rw [hfind]
      simp only [hch, if_true]
      rw [hfn]
      simp [hdf]
    · intro hdt
      unfold atualizar_emprestimo
      rw [hfind]
      simp only [hch, if_true]
      rw [hfn]
      simp [hdt, finishLoanUpdate_jogos]
  · intro hfn
    unfold atualizar_emprestimo
    rw [hfind]
    simp only [hch, if_true]
    rw [hfn]
    simp [finishLoanUpdate_jogos]

/-- Witness instantiating `claim_C3_gameSwitch`: moving emprestimo 1 from
jogo 1 to the available jogo 2 persists both availability changes. -/
theorem claim_C3_witness :
    (atualizar_emprestimo sistemaC3b 1 empNovoJogo).2.jogos
      = setDisponivelFirst (setDisponivelFirst sistemaC3b.jogos empUm.jogo_id true)
          empNovoJogo.jogo_id false :=
  ((claim_C3_gameSwitch sistemaC3b 1 empNovoJogo empUm jogoDoisLivre (by decide)
      (by decide)).1 (by decide)).2 (by decide)

/-- C4 counterexample: the store holds only the record with id 2; updating the
absent id 1 with a record whose identity is 2 raises the duplicate-id error
instead of returning the not-found `none` that the claim requires for an
absent id: the duplicate check precedes the absence check. -/
theorem claim_C4_counterexample :
    ([jogoDois].all (fun d => !(d.id == (1 : Int))) = true) ∧
    atualizar_entidade "jogos" Jogo.id [jogoDois] 1 jogoDois
      = .error (.idJaExiste "jogos" 2) ∧
    atualizar_entidade "jogos" Jogo.id [jogoDois] 1 jogoDois ≠ .ok none := by
  decide

/-- C4 (amended): in `atualizar_entidade` the duplicate-identity check runs
first: if the record's identity differs from the addressed id and any stored
record already uses the new identity, the operation fails with the
duplicate-id error (even when the addressed id is absent); otherwise an absent
id yields `none`, and a present id replaces every record stored under it and
returns the new record. -/
theorem claim_C4_identityUpdate {α : Type} (getId : α → Int) (ent : String)
    (dados : List α) (item_id : Int) (item : α) :
    (((getId item != item_id) && dados.any (fun d => getId d == getId item)) = true →
      atualizar_entidade ent getId dados item_id item
        = .error (.idJaExiste ent (getId item)))
  ∧ (((getId item != item_id) && dados.any (fun d => getId d == getId item)) = false →
      (dados.any (fun d => getId d == item_id) = false →
        atualizar_entidade ent getId dados item_id item = .ok none)
      ∧ (dados.any (fun d => getId d == item_id) = true →
        atualizar_entidade ent getId dados item_id item
          = .ok (some (dados.map (fun d => if getId d == item_id then item else d), item)))) := by
  unfold atualizar_entidade
  refine ⟨fun h => ?_, fun h => ⟨fun habs => ?_, fun hpres => ?_⟩⟩
  · simp [h]
  · simp [h, habs]
  · simp [h, hpres]

/-- Witness instantiating all three branches of `claim_C4_identityUpdate` on
concrete stores. -/
theorem claim_C4_witness :
    atualizar_entidade "jogos" Jogo.id [jogoDois] 1 jogoDois
      = .error (.idJaExiste "jogos" 2) ∧
    atualizar_entidade "jogos" Jogo.id [jogoDois] 3 jogoTres = .ok none ∧
    atualizar_entidade "jogos" Jogo.id [jogoDois] 2 jogoDoisLivre
      = .ok (some ([jogoDoisLivre], jogoDoisLivre)) :=
  ⟨(claim_C4_identityUpdate Jogo.id "jogos" [jogoDois] 1 jogoDois).1 (by decide),
   ((claim_C4_identityUpdate Jogo.id "jogos" [jogoDois] 3 jogoTres).2 (by decide)).1
     (by decide),
   ((claim_C4_identityUpdate Jogo.id "jogos" [jogoDois] 2 jogoDoisLivre).2 (by decide)).2
     (by decide)⟩

/-- Membership in `insertSortedUnique`. -/
theorem mem_insertSortedUnique {x a : Int} {l : List Int} :
    a ∈ insertSortedUnique x l ↔ a = x ∨ a ∈ l := by
  induction l with
  | nil => simp [insertSortedUnique]
  | cons y ys ih =>
    unfold insertSortedUnique
    by_cases h1 : x < y
    · simp [h1]
    · by_cases h2 : x = y
      · rw [if_neg h1, if_pos h2]
        subst h2
        simp [List.mem_cons]
      · rw [if_neg h1, if_neg h2]
        simp only [List.mem_cons, ih]
        tauto

/-- `sortedDedup` keeps exactly the elements of its input. -/
theorem mem_sortedDedup {a : Int} {l : List Int} : a ∈ sortedDedup l ↔ a ∈ l := by
  induction l with
  | nil => simp [sortedDedup]
  | cons x xs ih => simp [sortedDedup, mem_insertSortedUnique, ih]

/-- `sortedDedup` of a nonempty list is nonempty. -/
theorem sortedDedup_isEmpty_false {l : List Int} (h : l ≠ []) :
    (sortedDedup l).isEmpty = false := by
  cases l with
  | nil => exact absurd rfl h
  | cons x xs =>
    have hx : x ∈ sortedDedup (x :: xs) := mem_sortedDedup.mpr (List.mem_cons_self x xs)
    cases hsd : sortedDedup (x :: xs) with
    | nil => rw [hsd] at hx; simp at hx
    | cons y ys => simp

/-- A row whose id differs from the replaced one survives
`replaceFirstUser`. -/
theorem mem_replaceFirstUser_of_ne {users : List BlogUser} {uid : Int}
    {m v : BlogUser} (hv : v ∈ users) (hne : v.id ≠ uid) :
    v ∈ replaceFirstUser users uid m := by
  induction users with
  | nil => simp at hv
  | cons u rest ih =>
    unfold replaceFirstUser
    rcases List.mem_cons.mp hv with h | h
    · subst h
      rw [if_neg (by simpa using hne)]
      exact List.mem_cons_self _ _
    · by_cases hu : (u.id == uid) = true
      · rw [if_pos hu]
        exact List.mem_cons_of_mem _ h
      · rw [if_neg hu]
        exact List.mem_cons_of_mem _ (ih h)

/-- Every row of `replaceFirstLike` comes from the original table or is the
replacement. -/
theorem mem_replaceFirstLike {likes : List LikeRec} {lid : Int} {m b : LikeRec}
    (hb : b ∈ replaceFirstLike likes lid m) : b ∈ likes ∨ b = m := by
  induction likes with
  | nil => simp [replaceFirstLike] at hb
  | cons x rest ih =>
    unfold replaceFirstLike at hb
    by_cases hx : (x.id == lid) = true
    · rw [if_pos hx] at hb
      rcases List.mem_cons.mp hb with h | h
      · right; exact h
      · left; exact List.mem_cons_of_mem _ h
    · rw [if_neg hx] at hb
      rcases List.mem_cons.mp hb with h | h
      · left
        rw [h]
        exact List.mem_cons_self _ _
      · rcases ih h with h2 | h2
        · left; exact List.mem_cons_of_mem _ h2
        · right; exact h2

/-- Replacing the first row with a given id by a row that agrees with it on
the (user, post) pair preserves pairwise distinctness of the pairs. -/
theorem pairwise_replaceFirstLike {likes : List LikeRec} {lid : Int} {l m : LikeRec}
    (hf : likes.find? (fun x => x.id == lid) = some l)
    (hu : m.user_id = l.user_id) (hp : m.post_id = l.post_id)
    (h : likes.Pairwise likePairDistinct) :
    (replaceFirstLike likes lid m).Pairwise likePairDistinct := by
  induction likes with
  | nil => simp [replaceFirstLike]
  | cons x rest ih =>
    rw [List.find?_cons] at hf
    rw [List.pairwise_cons] at h
    unfold replaceFirstLike
    by_cases hx : (x.id == lid) = true
    · simp only [hx] at hf
      injection hf with hf
      subst hf
      rw [if_pos hx, List.pairwise_cons]
      refine ⟨fun b hb => ?_, h.2⟩
      have hxb := h.1 b hb
      unfold likePairDistinct at hxb ⊢
      rw [hu, hp]
      exact hxb
    · have hx2 : (x.id == lid) = false := by simpa using hx
      simp only [hx2] at hf
      rw [if_neg hx, List.pairwise_cons]
      refine ⟨fun b hb => ?_, ih hf h.2⟩
      rcases mem_replaceFirstLike hb with h2 | h2
      · exact h.1 b h2
      · subst h2
        have hxl := h.1 l (List.mem_of_find?_eq_some hf)
        unfold likePairDistinct at hxl ⊢
        rw [hu, hp]
        exact hxl

/-- `create_like` preserves distinctness of the (user, post) pairs. -/
theorem noDup_create_like (st : BlogState) (req : LikeCreate)
    (h : noDupLikePairs st.likes) : noDupLikePairs (create_like st req).2.likes := by
  unfold create_like
  split
  · exact h
  split
  · exact h
  split
  · exact h
  case isFalse h1 h2 h3 =>
    show (st.likes ++ [_]).Pairwise likePairDistinct
    rw [List.pairwise_append]
    refine ⟨h, List.pairwise_singleton _ _, fun a ha b hb => ?_⟩
    simp only [List.mem_singleton] at hb
    subst hb
    have hna : ¬(a.user_id == req.user_id && a.post_id == req.post_id) = true := by
      intro hc
      exact h3 (List.any_eq_true.mpr ⟨a, ha, hc⟩)
    unfold likePairDistinct
    simp only [Bool.and_eq_true, beq_iff_eq, not_and_or] at hna
    simpa using hna

/-- `update_like` preserves distinctness of the (user, post) pairs: the
update body cannot name `user_id` or `post_id`. -/
theorem noDup_update_like (st : BlogState) (lid : Int) (up : LikeUpdate)
    (h : noDupLikePairs st.likes) : noDupLikePairs (update_like st lid up).2.likes := by
  unfold update_like
  cases hf : st.likes.find? (fun l => l.id == lid) with
  | none => exact h
  | some l =>
    show (replaceFirstLike st.likes lid (applyLikeUpdate l up)).Pairwise likePairDistinct
    exact pairwise_replaceFirstLike hf rfl rfl h

/-- `delete_like` preserves distinctness of the (user, post) pairs. -/
theorem noDup_delete_like (st : BlogState) (lid : Int)
    (h : noDupLikePairs st.likes) : noDupLikePairs (delete_like st lid).2.likes := by
  unfold delete_like
  cases hf : st.likes.find? (fun l => l.id == lid) with
  | none => exact h
  | some l =>
    show (st.likes.filter _).Pairwise likePairDistinct
    exact h.sublist (List.filter_sublist _)

/-- Every likes request preserves distinctness of the (user, post) pairs. -/
theorem noDup_likeStep (st : BlogState) (op : LikeOp)
    (h : noDupLikePairs st.likes) : noDupLikePairs (likeStep st op).likes := by
  cases op with
  | create req => exact noDup_create_like st req h
  | update id up => exact noDup_update_like st id up h
  | delete id => exact noDup_delete_like st id h

/-- C7 (amended): when the author resolves and no duplicate (title, author)
post exists, a create-Post request naming at least one unresolved category id
fails with the missing-ids error, the reported ids are exactly the set of
requested ids with no matching Category row, and the store (Post rows and
link rows included) is unchanged. -/
theorem claim_C7_missingCategories (st : BlogState) (req : PostCreate)
    (hauthor : st.users.any (fun u => u.id == req.author_id) = true)
    (htitle : st.posts.any
        (fun p => p.title == req.title && p.author_id == req.author_id) = false)
    (hmiss : req.category_ids.filter
        (fun cid => !(st.categories.any (fun c => c.id == cid))) ≠ []) :
    create_post st req =
      (.error (.missingCategories (sortedDedup (req.category_ids.filter
          (fun cid => !(st.categories.any (fun c => c.id == cid)))))), st) ∧
    (∀ cid : Int,
      cid ∈ sortedDedup (req.category_ids.filter
          (fun cid2 => !(st.categories.any (fun c => c.id == cid2)))) ↔
      (cid ∈ req.category_ids ∧ st.categories.any (fun c => c.id == cid) = false)) := by
  constructor
  · have hne : req.category_ids.isEmpty = false := by
      cases hc : req.category_ids with
      | nil => rw [hc] at hmiss; simp at hmiss
      | cons a as => simp
    have hsd := sortedDedup_isEmpty_false hmiss
    unfold create_post
    rw [hne, hauthor, htitle]
    simp [hsd]
  · intro cid
    rw [mem_sortedDedup, List.mem_filter]
    simp

/-- C7 counterexample: a create-Post request naming the missing category id 1
but authored by the absent user 9 fails with "Author not found", not with the
missing-category report, refuting the claim's universal quantification over
requests. -/
theorem claim_C7_counterexample :
    reqPostSemAutor.category_ids = [1] ∧
    blogVazio.categories.any (fun c => c.id == (1 : Int)) = false ∧
    (create_post blogVazio reqPostSemAutor).1 = .error (.notFound "Author not found") ∧
    (create_post blogVazio reqPostSemAutor).1 ≠ .error (.missingCategories [1]) := by
  decide

/-- Witness instantiating `claim_C7_missingCategories`: the request names the
missing ids 5, 3, 5 and the failure reports exactly the sorted set [3, 5]. -/
theorem claim_C7_witness :
    create_post blogComAutor reqPostFaltando
      = (.error (.missingCategories [3, 5]), blogComAutor) :=
  (claim_C7_missingCategories blogComAutor reqPostFaltando (by decide) (by decide)
      (by decide)).1

/-- C8: `create_like` fails 404 when the user or post does not resolve and
400 when the (user, post) pair is already present; consequently any sequence
of likes requests preserves the invariant that no two Like rows share a
(user, post) pair. -/
theorem claim_C8_likeUniqueness (st : BlogState) (like : LikeCreate)
    (ops : List LikeOp) :
    (st.users.any (fun u => u.id == like.user_id) = false →
      create_like st like = (.error (.notFound "User not found"), st))
  ∧ (st.users.any (fun u => u.id == like.user_id) = true →
     st.posts.any (fun p => p.id == like.post_id) = false →
      create_like st like = (.error (.notFound "Post not found"), st))
  ∧ (st.users.any (fun u => u.id == like.user_id) = true →
     st.posts.any (fun p => p.id == like.post_id) = true →
     st.likes.any (fun l => l.user_id == like.user_id && l.post_id == like.post_id) = true →
      create_like st like = (.error (.badRequest "This like already exists"), st))
  ∧ (noDupLikePairs st.likes → noDupLikePairs (runLikeOps st ops).likes) := by
  refine ⟨fun h1 => ?_, fun h1 h2 => ?_, fun h1 h2 h3 => ?_, ?_⟩
  · unfold create_like
    rw [h1]
    rfl
  · unfold create_like
    rw [h1, h2]
    rfl
  · unfold create_like
    rw [h1, h2, h3]
    rfl
  · induction ops generalizing st with
    | nil => exact fun h => h
    | cons op ops ih =>
      intro h
      exact ih (likeStep st op) (noDup_likeStep st op h)

/-- Witness instantiating `claim_C8_likeUniqueness`: the duplicate
(user 1, post 1) like is rejected, and replaying two identical create
requests from the empty store leaves the pairs distinct. -/
theorem claim_C8_witness :
    create_like blogComLike reqLikeDup
      = (.error (.badRequest "This like already exists"), blogComLike) ∧
    noDupLikePairs (runLikeOps blogVazio
      [LikeOp.create reqLikeDup, LikeOp.create reqLikeDup]).likes :=
  ⟨(claim_C8_likeUniqueness blogComLike reqLikeDup []).2.2.1 (by decide) (by decide)
      (by decide),
   (claim_C8_likeUniqueness blogVazio reqLikeDup
      [LikeOp.create reqLikeDup, LikeOp.create reqLikeDup]).2.2.2 List.Pairwise.nil⟩

/-- C9: starting from a store whose usernames and emails avoid the request's,
the first `create_user` succeeds and an identical second request fails with
the domain-specific 400 detail "Username is already in use.", not with the
generic internal failure. -/
theorem claim_C9_duplicateUsername (st : BlogState) (req : UserCreate)
    (hu : st.users.any (fun v => v.username == req.username) = false)
    (he : st.users.any (fun v => v.email == req.email) = false) :
    ∃ u1 : BlogUser, ∃ st1 : BlogState,
      create_user st req = (.ok u1, st1) ∧
      u1.username = req.username ∧ u1.email = req.email ∧
      create_user st1 req = (.error (.badRequest "Username is already in use."), st1) ∧
      (∀ d : String, (create_user st1 req).1 ≠ .error (.internalError d)) := by
  have h1 : create_user st req =
      (.ok { id := nextId (st.users.map (fun v => v.id)), username := req.username,
             email := req.email, full_name := req.full_name, bio := req.bio,
             created_at := none },
       { st with users := st.users ++
           [{ id := nextId (st.users.map (fun v => v.id)), username := req.username,
              email := req.email, full_name := req.full_name, bio := req.bio,
              created_at := none }] }) := by
    simp [create_user, sqliteInsertUser, hu, he]
  have h2 : create_user
      { st with users := st.users ++
          [{ id := nextId (st.users.map (fun v => v.id)), username := req.username,
             email := req.email, full_name := req.full_name, bio := req.bio,
             created_at := none }] } req =
      (.error (.badRequest "Username is already in use."),
       { st with users := st.users ++
           [{ id := nextId (st.users.map (fun v => v.id)), username := req.username,
              email := req.email, full_name := req.full_name, bio := req.bio,
              created_at := none }] }) := by
    simp [create_user, sqliteInsertUser, List.any_append]
  refine ⟨_, _, h1, rfl, rfl, h2, ?_⟩
  intro d
  rw [h2]
  simp

/-- Witness instantiating `claim_C9_duplicateUsername` from the empty store
with the spec's example request (username "a", email "x@x.com"). -/
theorem claim_C9_witness :
    ∃ u1 : BlogUser, ∃ st1 : BlogState,
      create_user blogVazio reqUserUm = (.ok u1, st1) ∧
      u1.username = reqUserUm.username ∧ u1.email = reqUserUm.email ∧
      create_user st1 reqUserUm
        = (.error (.badRequest "Username is already in use."), st1) ∧
      (∀ d : String, (create_user st1 reqUserUm).1 ≠ .error (.internalError d)) :=
  claim_C9_duplicateUsername blogVazio reqUserUm (by decide) (by decide)

/-- C5 (amended, relational store): `update_user` with a partial field set
merges only the supplied fields into the addressed row (every unsupplied
field keeps its prior value, the id is untouched) and every other row
survives unchanged. The flat-file store has no partial-update path (see the
counterexample). -/
theorem claim_C5_partialMerge (st : BlogState) (uid : Int) (up : UserUpdate)
    (u : BlogUser)
    (hf : st.users.find? (fun v => v.id == uid) = some u)
    (hnu : st.users.any (fun v => !(v.id == uid) &&
        v.username == (applyUserUpdate u up).username) = false)
    (hne : st.users.any (fun v => !(v.id == uid) &&
        v.email == (applyUserUpdate u up).email) = false) :
    update_user st uid up =
      (.ok (applyUserUpdate u up),
       { st with users := replaceFirstUser st.users uid (applyUserUpdate u up) }) ∧
    (applyUserUpdate u up).id = u.id ∧
    (∀ s, up.username = some s → (applyUserUpdate u up).username = s) ∧
    (up.username = none → (applyUserUpdate u up).username = u.username) ∧
    (∀ s, up.email = some s → (applyUserUpdate u up).email = s) ∧
    (up.email = none → (applyUserUpdate u up).email = u.email) ∧
    (∀ s, up.full_name = some s → (applyUserUpdate u up).full_name = s) ∧
    (up.full_name = none → (applyUserUpdate u up).full_name = u.full_name) ∧
    (∀ s, up.bio = some s → (applyUserUpdate u up).bio = s) ∧
    (up.bio = none → (applyUserUpdate u up).bio = u.bio) ∧
    (∀ v ∈ st.users, v.id ≠ uid → v ∈ (update_user st uid up).2.users) := by
  have hmain : update_user st uid up =
      (.ok (applyUserUpdate u up),
       { st with users := replaceFirstUser st.users uid (applyUserUpdate u up) }) := by
    unfold update_user
    rw [hf]
    simp only [hnu, hne]
    rfl
  refine ⟨hmain, rfl, ?_, ?_, ?_, ?_, ?_, ?_, ?_, ?_, ?_⟩
  · intro s hs; simp [applyUserUpdate, hs]
  · intro hs; simp [applyUserUpdate, hs]
  · intro s hs; simp [applyUserUpdate, hs]
  · intro hs; simp [applyUserUpdate, hs]
  · intro s hs; simp [applyUserUpdate, hs]
  · intro hs; simp [applyUserUpdate, hs]
  · intro s hs; simp [applyUserUpdate, hs]
  · intro hs; simp [applyUserUpdate, hs]
  · intro v hv hvne
    rw [hmain]
    exact mem_replaceFirstUser_of_ne hv hvne

/-- C5 counterexample (flat-file store): the stored jogo 1 has
`disponivel = false`; an update request supplying every field except
`disponivel` materializes with the pydantic default `true` and
`atualizar_entidade` replaces the record wholesale, so the unsupplied field
does not retain its prior value. -/
theorem claim_C5_counterexample :
    reqJogoParcial.disponivel = none ∧
    jogoUm.disponivel = false ∧
    atualizar_entidade "jogos" Jogo.id [jogoUm] 1 (jogoOfRequest reqJogoParcial)
      = .ok (some ([{ jogoUm with titulo := "Alpha2", disponivel := true }],
          { jogoUm with titulo := "Alpha2", disponivel := true })) := by
  decide

/-- Witness instantiating `claim_C5_partialMerge`: updating only `bio` of
user 1. -/
theorem claim_C5_witness :
    update_user blogComAutor 1 upBio =
      (.ok { userUm with bio := some "oi" },
       { blogComAutor with users := [{ userUm with bio := some "oi" }] }) :=
  (claim_C5_partialMerge blogComAutor 1 upBio userUm (by decide) (by decide)
      (by decide)).1

/-- Digit characters are digits. -/
theorem digitChar_isDigit {d : Nat} (h : d < 10) : isDigitChar (digitChar d) = true := by
  interval_cases d <;> decide

/-- Value of a digit character. -/
theorem digitChar_val {d : Nat} (h : d < 10) : (digitChar d).toNat - 48 = d := by
  interval_cases d <;> decide

/-- `natDigitsAux` produces digit characters. -/
theorem natDigitsAux_all (fuel : Nat) : ∀ n acc, n ≤ fuel →
    acc.all isDigitChar = true →
    (natDigitsAux fuel n acc).all isDigitChar = true := by
  induction fuel with
  | zero =>
    intro n acc hn hacc
    have : n = 0 := Nat.le_zero.mp hn
    subst this
    simp [natDigitsAux, List.all_cons, digitChar_isDigit (by omega : (0:Nat) < 10), hacc]
  | succ fuel ih =>
    intro n acc hn hacc
    unfold natDigitsAux
    by_cases h : n < 10
    · rw [if_pos h]
      simp [List.all_cons, digitChar_isDigit h, hacc]
    · rw [if_neg h]
      refine ih (n / 10) _ (by omega) ?_
      simp [List.all_cons, digitChar_isDigit (Nat.mod_lt n (by omega)), hacc]

/-- `natDigitsAux` never produces an empty list. -/
theorem natDigitsAux_ne_nil (fuel : Nat) : ∀ n acc, natDigitsAux fuel n acc ≠ [] := by
  induction fuel with
  | zero => intro n acc; simp [natDigitsAux]
  | succ fuel ih =>
    intro n acc
    unfold natDigitsAux
    by_cases h : n < 10
    · rw [if_pos h]; simp
    · rw [if_neg h]; exact ih (n / 10) _

/-- Value of the digits produced by `natDigitsAux`. -/
theorem digitsVal_natDigitsAux (fuel : Nat) : ∀ n acc a, n ≤ fuel →
    digitsVal (natDigitsAux fuel n acc) a = digitsVal acc (a * tenPow n + n) := by
  induction fuel with
  | zero =>
    intro n acc a hn
    have : n = 0 := Nat.le_zero.mp hn
    subst this
    unfold natDigitsAux tenPow
    rw [if_pos (by omega : (0:Nat) < 10)]
    simp [digitsVal, digitChar_val (by omega : (0:Nat) < 10)]
  | succ fuel ih =>
    intro n acc a hn
    unfold natDigitsAux tenPow
    by_cases h : n < 10
    · rw [if_pos h, if_pos h]
      simp [digitsVal, digitChar_val h]
    · rw [if_neg h, if_neg h]
      have hfuel : n / 10 ≤ fuel := by omega
      rw [ih (n / 10) _ _ hfuel]
      simp only [digitsVal, digitChar_val (Nat.mod_lt n (by omega))]
      congr 1
      generalize tenPow (n / 10) = t
      have h1 : (a * t + n / 10) * 10 + n % 10
          = 10 * (a * t) + (10 * (n / 10) + n % 10) := by ring
      have h2 : a * (10 * t) + n = 10 * (a * t) + n := by ring
      rw [h1, h2, Nat.div_add_mod]

/-- `natDigits` never produces an empty cell. -/
theorem natDigits_isEmpty_false (n : Nat) : (natDigits n []).isEmpty = false := by
  cases hnd : natDigits n [] with
  | nil => exact absurd hnd (natDigitsAux_ne_nil n n [])
  | cons c cs => rfl

/-- Parsing the digits of `n` gives back `n`. -/
theorem parseNatDigits_natDigits (n : Nat) :
    parseNatDigits (natDigits n []) = some n := by
  unfold parseNatDigits
  rw [natDigits_isEmpty_false n]
  rw [if_neg (by simp)]
  rw [if_pos (show (natDigits n []).all isDigitChar = true from
    natDigitsAux_all n n [] (Nat.le_refl n) rfl)]
  show some (digitsVal (natDigitsAux n n []) 0) = some n
  rw [digitsVal_natDigitsAux n n [] 0 (Nat.le_refl n)]
  simp [digitsVal]

/-- The first digit of `natDigits` is not a minus sign. -/
theorem natDigits_head_not_dash (n : Nat) {c : Char} {cs : List Char}
    (h : natDigits n [] = c :: cs) : ¬(c = '-') := by
  intro hcd
  have hall := natDigitsAux_all n n [] (Nat.le_refl n) rfl
  rw [show natDigitsAux n n [] = natDigits n [] from rfl, h, hcd] at hall
  simp [List.all_cons] at hall
  exact absurd hall.1 (by decide)

/-- python `int(str(i)) = i`: the int cell codec round-trips. -/
theorem pyInt_pyStr (i : Int) : pyInt (pyStr i) = some i := by
  cases i with
  | ofNat n =>
    show pyIntChars (natDigits n []) = some (Int.ofNat n)
    obtain ⟨c, cs, hc⟩ : ∃ c cs, natDigits n [] = c :: cs := by
      cases hnd : natDigits n [] with
      | nil => exact absurd hnd (natDigitsAux_ne_nil n n [])
      | cons c cs => exact ⟨c, cs, rfl⟩
    rw [hc]
    simp only [pyIntChars]
    rw [if_neg (natDigits_head_not_dash n hc)]
    rw [← hc, parseNatDigits_natDigits]
    rfl
  | negSucc m =>
    show pyIntChars ('-' :: natDigits (m + 1) []) = some (Int.negSucc m)
    simp only [pyIntChars]
    rw [if_pos trivial, parseNatDigits_natDigits]
    simp [Int.negSucc_eq]

/-- The bool cell codec round-trips. -/
theorem parseBoolCell_pyStrBool (b : Bool) : parseBoolCell (pyStrBool b) = b := by
  cases b <;> decide

/-- A bool cell is never empty. -/
theorem pyStrBool_ne_empty (b : Bool) : pyStrBool b ≠ "" := by
  cases b <;> decide

/-- C6 (amended): the persisted CSV representation round-trips every record
accepted by create — for a Jogo within its validation bounds and for every
Emprestimo the loaded record equals the dumped one, and likewise for an
Amigo whose optional email is present, in which case get-by-id over the
loaded collection returns the created record — but an Amigo with
`email = none` is read back with `email = some ""` (see the
counterexample). -/
theorem claim_C6_roundTrip (anoAtual : Int) (j : Jogo) (a : Amigo) (e : Emprestimo) :
    (j.titulo.length ≤ 100 → j.genero.length ≤ 50 → j.plataforma.length ≤ 50 →
     1950 ≤ j.ano_lancamento → j.ano_lancamento ≤ anoAtual →
      loadJogo anoAtual (dumpJogo j) = some j)
  ∧ (∀ s : String, a.email = some s → a.nome.length ≤ 100 →
      a.telefone.length ≤ 20 → s.length ≤ 100 →
      loadAmigo (dumpAmigo a) = some a ∧
      (carregarAmigosRows [dumpAmigo a]).find? (fun x => x.id == a.id) = some a)
  ∧ loadEmprestimo (dumpEmprestimo e) = some e := by
  refine ⟨fun h1 h2 h3 h4 h5 => ?_, fun s hs h1 h2 h3 => ?_, ?_⟩
  · simp only [loadJogo, dumpJogo, pyInt_pyStr]
    rw [if_pos ⟨h1, h2, h3, h4, h5, pyStrBool_ne_empty _⟩]
    simp [parseBoolCell_pyStrBool]
  · have hload : loadAmigo (dumpAmigo a) = some a := by
      simp only [loadAmigo, dumpAmigo, pyInt_pyStr, hs, Option.getD_some]
      rw [if_pos ⟨h1, h2, h3⟩]
      rw [← hs]
    refine ⟨hload, ?_⟩
    simp [carregarAmigosRows, hload]
  · simp only [loadEmprestimo, dumpEmprestimo, pyInt_pyStr]

/-- C6 counterexample: an Amigo created with `email = None` is read back from
the CSV with `email = some ""`; the loaded record (also through get-by-id) is
not equal to the created one. -/
theorem claim_C6_counterexample :
    amigoSemEmail.email = none ∧
    loadAmigo (dumpAmigo amigoSemEmail) = some { amigoSemEmail with email := some "" } ∧
    loadAmigo (dumpAmigo amigoSemEmail) ≠ some amigoSemEmail ∧
    (carregarAmigosRows [dumpAmigo amigoSemEmail]).find?
        (fun x => x.id == amigoSemEmail.id) ≠ some amigoSemEmail := by
  decide

/-- Witness instantiating `claim_C6_roundTrip` on concrete records. -/
theorem claim_C6_witness :
    loadJogo 2025 (dumpJogo jogoLivre) = some jogoLivre ∧
    loadAmigo (dumpAmigo amigoUm) = some amigoUm ∧
    (carregarAmigosRows [dumpAmigo amigoUm]).find?
        (fun x => x.id == amigoUm.id) = some amigoUm ∧
    loadEmprestimo (dumpEmprestimo empUm) = some empUm :=
  ⟨(claim_C6_roundTrip 2025 jogoLivre amigoUm empUm).1 (by decide) (by decide)
      (by decide) (by decide) (by decide),
   ((claim_C6_roundTrip 2025 jogoLivre amigoUm empUm).2.1 "ana@x.com" (by decide)
      (by decide) (by decide) (by decide)).1,
   ((claim_C6_roundTrip 2025 jogoLivre amigoUm empUm).2.1 "ana@x.com" (by decide)
      (by decide) (by decide) (by decide)).2,
   (claim_C6_roundTrip 2025 jogoLivre amigoUm empUm).2.2⟩
